import Mathlib

/-!
Shallow embedding of the core game logic of src/flappybird.py (a Tk-based
Flappy Bird clone), together with proofs checking the natural-language
specification against it.

Modelling conventions:
* Coordinates and velocities are rationals.  Every numeric value the
  program ever produces is a multiple of 1/2 (fall step 5 * 0.1 rounds to
  exactly 0.5 as an IEEE double, the flap velocity 5 * 1.6 rounds to
  exactly -8.0, obstacle x steps are the integer -2), so the rational
  model is observation-for-observation exact with respect to the Python
  floats.
* The Tk canvas is elided: each object tracks the coordinates the canvas
  would report via coords().  Tk normalises rectangle corner coordinates
  so that x1 <= x2 and y1 <= y2; the position tuples below are written in
  that normalised form.
* The player's _movement_stack only ever holds copies of the string
  "True" (appended by event_entered, removed by _flap, popped by move),
  so it is modelled by its length, a natural number.
* random.randrange(MIN, MAX) is modelled nondeterministically: spawning
  code consumes successive values of an ambient supply rand : Nat -> Rat,
  and theorems that depend on the range carry the randrange contract
  200 <= rand i < 600 as a hypothesis.
* Python exceptions are modelled with Option: a function that can raise
  an uncaught IndexError returns none in that case.
-/

set_option autoImplicit false

/-- Player state: the canvas rectangle created at (x, y, x+40, y+40)
is tracked by its top-left corner (x, y); y_velocity is the vertical
speed and movement_stack the number of queued "True" entries. -/
structure Player where
  x : ℚ
  y : ℚ
  y_velocity : ℚ
  movement_stack : ℕ
deriving DecidableEq, Repr

/-- Player.__init__(canvas, x, y, control_key, control_button): velocity 0,
empty movement stack. -/
def Player.init (x y : ℚ) : Player :=
  { x := x, y := y, y_velocity := 0, movement_stack := 0 }

/-- Player._fall: y_velocity += _ACCELERATION * _FALL_TIME (5 * 0.1, which
is exactly 1/2), then canvas.move(player_rectangle, 0, y_velocity). -/
def Player.fall (p : Player) : Player :=
  let v := p.y_velocity + 5 * (1 / 10)
  { p with y_velocity := v, y := p.y + v }

/-- Player._flap: y_velocity = -_ACCELERATION * _JUMP_TIME (-5 * 1.6, which
is exactly -8), canvas.move(player_rectangle, 0, y_velocity), then
movement_stack.remove("True"). -/
def Player.flap (p : Player) : Player :=
  let v := -5 * (8 / 5)
  { p with y_velocity := v, y := p.y + v, movement_stack := p.movement_stack - 1 }

/-- Player.move: three sequential if-statements on the live stack length;
fall when the stack is empty, flap when it has exactly one entry, pop one
entry (and do nothing else) when it has more than one. -/
def Player.move (p : Player) : Player :=
  let p1 := if p.movement_stack = 0 then p.fall else p
  let p2 := if p1.movement_stack = 1 then p1.flap else p1
  if p2.movement_stack > 1 then
    { p2 with movement_stack := p2.movement_stack - 1 }
  else p2

/-- Player.event_entered: when the event matches the control key or
button, append "True" to the movement stack; otherwise ignore it.  The
key/button comparison against the event is abstracted into the Boolean
argument. -/
def Player.event_entered (p : Player) (matches_control : Bool) : Player :=
  if matches_control then { p with movement_stack := p.movement_stack + 1 } else p

/-- Player.get_coordinates: canvas.coords of the player rectangle,
(left x, top y, right x, bottom y), with _BIRD_WIDTH = _BIRD_HEIGHT = 40. -/
def Player.get_coordinates (p : Player) : ℚ × ℚ × ℚ × ℚ :=
  (p.x, p.y, p.x + 40, p.y + 40)

/-- Iterate Player.move (one kinematics tick per application). -/
def Player.moveN (p : Player) : ℕ → Player
  | 0 => p
  | n + 1 => (p.moveN n).move

/-- Obstacle pair state: x is the shared left edge of both pipes, y the
anchor (top edge of the bottom pipe, i.e. the bottom of the gap); the
halfway and off_screen flags are those maintained by
_check_obstacle_positions. -/
structure Obstacle where
  x : ℚ
  y : ℚ
  halfway : Bool
  off_screen : Bool
deriving DecidableEq, Repr

/-- Obstacle.__init__(canvas, x, y): both rectangles are created at the
given position and the halfway and off_screen flags start False. -/
def Obstacle.init (x y : ℚ) : Obstacle :=
  { x := x, y := y, halfway := false, off_screen := false }

/-- Tk-normalised coords of the top pipe, created as
(x, y - _OBSTACLE_GAP, x + _OBSTACLE_WIDTH, y - _SCREEN_HEIGHT) with
gap 150, width 70, screen height 640; since y - 640 < y - 150 the
normalised tuple is (x, y - 640, x + 70, y - 150). -/
def Obstacle.top_obstacle_position (ob : Obstacle) : ℚ × ℚ × ℚ × ℚ :=
  (ob.x, ob.y - 640, ob.x + 70, ob.y - 150)

/-- Coords of the bottom pipe, created as
(x, y, x + _OBSTACLE_WIDTH, y + _SCREEN_HEIGHT) = (x, y, x + 70, y + 640). -/
def Obstacle.bottom_obstacle_position (ob : Obstacle) : ℚ × ℚ × ℚ × ℚ :=
  (ob.x, ob.y, ob.x + 70, ob.y + 640)

/-- Obstacle._check_obstacle_positions: set off_screen when the right edge
(bottom_obstacle_position[RIGHT_X] = x + 70) is <= 0 (no else branch, so
the flag is otherwise left alone); set halfway exactly when the left edge
equals _SCREEN_WIDTH / 2 = 180, and reset it to False otherwise. -/
def Obstacle.check_obstacle_positions (ob : Obstacle) : Obstacle :=
  let ob1 := if ob.x + 70 ≤ 0 then { ob with off_screen := true } else ob
  if ob1.x = 180 then { ob1 with halfway := true } else { ob1 with halfway := false }

/-- Obstacle.move_obstacle: canvas.move both pipes by _MOVEMENT_SPEED = -2
on the x axis, refresh the stored positions, then run
_check_obstacle_positions. -/
def Obstacle.move_obstacle (ob : Obstacle) : Obstacle :=
  Obstacle.check_obstacle_positions { ob with x := ob.x + (-2) }

/-- Iterate Obstacle.move_obstacle (one stream tick of motion each). -/
def Obstacle.move_obstacleN (ob : Obstacle) : ℕ → Obstacle
  | 0 => ob
  | n + 1 => (ob.move_obstacleN n).move_obstacle

/-- Scoreboard state: just the score counter (the Tk label mirrors it). -/
structure Scoreboard where
  score : ℕ
deriving DecidableEq, Repr

/-- Scoreboard.increase_score: score += _POINT_WORTH = 1. -/
def Scoreboard.increase_score (s : Scoreboard) : Scoreboard :=
  { score := s.score + 1 }

/-- Game state: the Player, the ordered list of active obstacle pairs,
the Scoreboard, and the Game.score mirror of the scoreboard count. -/
structure Game where
  player : Player
  obstacles : List Obstacle
  scoreboard : Scoreboard
  score : ℕ
deriving DecidableEq, Repr

/-- Game.__init__: Player(canvas, 40, 300, space, 1), empty obstacle
list, Scoreboard(canvas, 0, 0) with score 0, Game.score = 0. -/
def Game.init : Game :=
  { player := Player.init 40 300, obstacles := [], scoreboard := ⟨0⟩, score := 0 }

/-- Closed-rectangle bounding-box intersection test between two
(x1, y1, x2, y2) tuples, modelling membership of the player rectangle in
canvas.find_overlapping over the queried region. -/
def overlapping (r s : ℚ × ℚ × ℚ × ℚ) : Bool :=
  decide (r.1 ≤ s.2.2.1) && decide (s.1 ≤ r.2.2.1) &&
    decide (r.2.1 ≤ s.2.2.2) && decide (s.2.1 ≤ r.2.2.2)

/-- Game.manage_collisions: inside a try block, take obstacles[0] (an
empty list raises IndexError, caught below to return False = some false);
return True when the player rectangle overlaps the bottom or top pipe;
elif return True when the player bottom y >= _SCREEN_HEIGHT = 640 or the
player top y <= 0; otherwise fall off the end of the function, which in
Python returns None (modelled as none). -/
def Game.manage_collisions (g : Game) : Option Bool :=
  match g.obstacles with
  | [] => some false
  | obstacle :: _ =>
    if overlapping g.player.get_coordinates obstacle.bottom_obstacle_position
        || overlapping g.player.get_coordinates obstacle.top_obstacle_position then
      some true
    else if g.player.get_coordinates.2.2.2 ≥ 640 ∨ g.player.get_coordinates.2.1 ≤ 0 then
      some true
    else
      none

/-- Python truthiness of the value manage_collisions returns: True is
truthy, False and None are falsy. -/
def truthy : Option Bool → Bool
  | some b => b
  | none => false

/-- Session state of the controller described by the spec: check_restart
keeps the current Game (Running) or tears it down and rebuilds from the
menu (Terminated). -/
inductive SessionState
  | Running
  | Terminated
deriving DecidableEq, Repr

/-- Application.check_restart: if game_object.manage_collisions() is
truthy, the game canvas is discarded and a fresh Game is built (the
session is over); otherwise the session keeps running. -/
def Application.check_restart (g : Game) : SessionState :=
  if truthy g.manage_collisions then SessionState.Terminated else SessionState.Running

/-- Game._manage_score: obstacle = obstacles[0] with no surrounding
try/except, so an empty stream raises an uncaught IndexError (none).
Otherwise, when the player right x equals the bottom pipe right x
(both index RIGHT_X = 2), run Scoreboard.increase_score and copy the
scoreboard count into Game.score. -/
def Game.manage_score (g : Game) : Option Game :=
  match g.obstacles with
  | [] => none
  | obstacle :: _ =>
    if g.player.get_coordinates.2.2.1 = obstacle.bottom_obstacle_position.2.2.1 then
      let sb := g.scoreboard.increase_score
      some { g with scoreboard := sb, score := sb.score }
    else
      some g

/-- Python list.remove: delete the first occurrence of the given element
(the loop below only ever removes an element known to be present). -/
def remove_first : List Obstacle → Obstacle → List Obstacle
  | [], _ => []
  | a :: rest, ob => if a = ob then rest else a :: remove_first rest ob

/-- Second for-loop of Game._manage_pipes, modelled at Python's level of
detail: the loop keeps an index into the live list, so elements appended
during iteration are visited too, and removing the current element shifts
its successor into the current slot, where the advancing index skips it.
For every visited obstacle: if halfway, append
Obstacle(_SCREEN_WIDTH + _DISTANCE_BETWEEN_OBSTACLES = 440, randrange(...));
if off_screen, remove it from the list.  The fuel argument only bounds the
recursion; manage_pipes passes enough for every visit the loop can make. -/
def Game.manage_pipes_loop : ℕ → List Obstacle → ℕ → (ℕ → ℚ) → ℕ → List Obstacle × ℕ
  | 0, l, _, _, k => (l, k)
  | fuel + 1, l, i, rand, k =>
    if h : i < l.length then
      let ob := l.get ⟨i, h⟩
      let l1 := if ob.halfway then l ++ [Obstacle.init 440 (rand k)] else l
      let k1 := if ob.halfway then k + 1 else k
      let l2 := if ob.off_screen then remove_first l1 ob else l1
      Game.manage_pipes_loop fuel l2 (i + 1) rand k1
    else
      (l, k)

/-- Game._manage_pipes acting on the _obstacles list: first move every
obstacle; then, if the list is empty, spawn one pair at
Obstacle(_SCREEN_WIDTH = 360, randrange(200, 600)); finally run the
spawn/remove loop over the (live) list.  rand/k thread the successive
randrange draws. -/
def Game.manage_pipes (obstacles : List Obstacle) (rand : ℕ → ℚ) (k : ℕ) :
    List Obstacle × ℕ :=
  let moved := obstacles.map Obstacle.move_obstacle
  let spawned :=
    if moved.length = 0 then (moved ++ [Obstacle.init 360 (rand k)], k + 1)
    else (moved, k)
  Game.manage_pipes_loop (2 * spawned.1.length + 1) spawned.1 0 rand spawned.2

/-- Iterated stream ticks of Game._manage_pipes starting from the empty
stream of Game.__init__ with the first randrange draw pending. -/
def Game.pipesN (rand : ℕ → ℚ) : ℕ → List Obstacle × ℕ
  | 0 => ([], 0)
  | n + 1 => Game.manage_pipes (Game.pipesN rand n).1 rand (Game.pipesN rand n).2

theorem Obstacle.check_obstacle_positions_x (ob : Obstacle) :
    (ob.check_obstacle_positions).x = ob.x := by
  unfold Obstacle.check_obstacle_positions
  dsimp only
  split_ifs <;> rfl

theorem Obstacle.move_obstacle_x (ob : Obstacle) :
    (ob.move_obstacle).x = ob.x - 2 := by
  unfold Obstacle.move_obstacle
  rw [Obstacle.check_obstacle_positions_x]
  ring

theorem Obstacle.move_obstacleN_x (ob : Obstacle) (k : ℕ) :
    (ob.move_obstacleN k).x = ob.x - 2 * k := by
  induction k with
  | zero => simp [Obstacle.move_obstacleN]
  | succ n ih =>
    rw [Obstacle.move_obstacleN, Obstacle.move_obstacle_x, ih]
    push_cast
    ring

theorem Obstacle.check_obstacle_positions_y (ob : Obstacle) :
    (ob.check_obstacle_positions).y = ob.y := by
  unfold Obstacle.check_obstacle_positions
  dsimp only
  split_ifs <;> rfl

theorem Obstacle.move_obstacle_y (ob : Obstacle) :
    (ob.move_obstacle).y = ob.y := by
  unfold Obstacle.move_obstacle
  rw [Obstacle.check_obstacle_positions_y]

theorem Obstacle.move_obstacleN_y (ob : Obstacle) (k : ℕ) :
    (ob.move_obstacleN k).y = ob.y := by
  induction k with
  | zero => rfl
  | succ n ih => rw [Obstacle.move_obstacleN, Obstacle.move_obstacle_y, ih]

theorem Obstacle.move_obstacle_halfway (ob : Obstacle) :
    (ob.move_obstacle).halfway = decide (ob.x - 2 = 180) := by
  unfold Obstacle.move_obstacle Obstacle.check_obstacle_positions
  dsimp only
  rw [show ob.x + -2 = ob.x - 2 from by ring]
  split_ifs with h1 h2 h2 <;> simp_all

theorem Obstacle.move_obstacle_off_screen (ob : Obstacle) :
    (ob.move_obstacle).off_screen = (decide (ob.x - 2 + 70 ≤ 0) || ob.off_screen) := by
  unfold Obstacle.move_obstacle Obstacle.check_obstacle_positions
  dsimp only
  rw [show ob.x + -2 = ob.x - 2 from by ring]
  split_ifs with h1 h2 h2 <;> simp_all

theorem Obstacle.init_moveN_halfway (y : ℚ) (k : ℕ) :
    ((Obstacle.init 360 y).move_obstacleN k).halfway = true ↔ k = 90 := by
  cases k with
  | zero => simp [Obstacle.move_obstacleN, Obstacle.init]
  | succ n =>
    rw [Obstacle.move_obstacleN, Obstacle.move_obstacle_halfway,
      Obstacle.move_obstacleN_x]
    simp only [Obstacle.init, decide_eq_true_eq]
    constructor
    · intro h
      have hn : (n : ℚ) = 89 := by linarith
      have : n = 89 := by exact_mod_cast hn
      omega
    · intro h
      have : n = 89 := by omega
      subst this
      norm_num

theorem Obstacle.init_moveN_off_screen (y : ℚ) (k : ℕ) :
    ((Obstacle.init 360 y).move_obstacleN k).off_screen = decide (215 ≤ k) := by
  induction k with
  | zero => simp [Obstacle.move_obstacleN, Obstacle.init]
  | succ n ih =>
    rw [Obstacle.move_obstacleN, Obstacle.move_obstacle_off_screen,
      Obstacle.move_obstacleN_x, ih]
    simp only [Obstacle.init]
    by_cases h : 215 ≤ n + 1
    · have hq : (360 : ℚ) - 2 * n - 2 + 70 ≤ 0 := by
        have : (214 : ℚ) ≤ n := by exact_mod_cast Nat.le_of_succ_le_succ h
        linarith
      simp [h, hq]
    · have hn : n < 214 := by omega
      have hq : ¬((360 : ℚ) - 2 * n - 2 + 70 ≤ 0) := by
        have : (n : ℚ) ≤ 213 := by exact_mod_cast Nat.le_of_lt_succ hn
        push_neg
        linarith
      have h2 : ¬(215 ≤ n) := by omega
      simp [h, hq, h2]

theorem Obstacle.moveN_off_screen_formula (ob : Obstacle)
    (hoff : ob.off_screen = false) (hx : -70 < ob.x) :
    ∀ k : ℕ, (ob.move_obstacleN k).off_screen = decide (ob.x + 70 ≤ 2 * (k : ℚ)) := by
  intro k
  induction k with
  | zero =>
    rw [show ob.move_obstacleN 0 = ob from rfl, hoff]
    symm
    rw [decide_eq_false_iff_not]
    push_cast
    intro hcon
    linarith
  | succ n ih =>
    rw [Obstacle.move_obstacleN, Obstacle.move_obstacle_off_screen,
      Obstacle.move_obstacleN_x, ih]
    rw [show ((n + 1 : ℕ) : ℚ) = (n : ℚ) + 1 from by push_cast; ring]
    by_cases h : ob.x + 70 ≤ 2 * ((n : ℚ) + 1)
    · have h1 : ob.x - 2 * (n : ℚ) - 2 + 70 ≤ 0 := by linarith
      simp [h, h1]
    · have h1 : ¬(ob.x - 2 * (n : ℚ) - 2 + 70 ≤ 0) := by
        intro hcon
        apply h
        linarith
      have h2 : ¬(ob.x + 70 ≤ 2 * (n : ℚ)) := by
        intro hcon
        apply h
        linarith
      simp [h, h1, h2]

theorem Obstacle.init440_moveN_off_screen (y : ℚ) (k : ℕ) :
    ((Obstacle.init 440 y).move_obstacleN k).off_screen = decide (255 ≤ k) := by
  rw [Obstacle.moveN_off_screen_formula (Obstacle.init 440 y) rfl
    (by norm_num [Obstacle.init]) k]
  rw [decide_eq_decide]
  constructor
  · intro h
    simp only [Obstacle.init] at h
    have h2 : (255 : ℚ) ≤ (k : ℚ) := by linarith
    exact_mod_cast h2
  · intro h
    have h2 : (255 : ℚ) ≤ (k : ℚ) := by exact_mod_cast h
    show (Obstacle.init 440 y).x + 70 ≤ 2 * (k : ℚ)
    simp only [Obstacle.init]
    linarith

theorem Player.move_x (p : Player) : (p.move).x = p.x := by
  unfold Player.move Player.fall Player.flap
  dsimp only
  split_ifs <;> rfl

theorem Player.moveN_x (p : Player) (k : ℕ) : (p.moveN k).x = p.x := by
  induction k with
  | zero => rfl
  | succ n ih => rw [Player.moveN, Player.move_x, ih]

theorem Player.move_pop (p : Player) (h : 1 < p.movement_stack) :
    p.move = { p with movement_stack := p.movement_stack - 1 } := by
  unfold Player.move
  have h0 : ¬(p.movement_stack = 0) := by omega
  have h1 : ¬(p.movement_stack = 1) := by omega
  simp [h0, h1, h]

theorem Player.move_flap (p : Player) (h : p.movement_stack = 1) :
    p.move = { p with y_velocity := -8, y := p.y + -8, movement_stack := 0 } := by
  unfold Player.move Player.flap
  have h0 : ¬(p.movement_stack = 0) := by omega
  simp only [h0, if_false, h, if_true, reduceIte]
  norm_num [h]

theorem Player.move_fall (p : Player) (h : p.movement_stack = 0) :
    p.move = { p with y_velocity := p.y_velocity + 1 / 2,
                      y := p.y + (p.y_velocity + 1 / 2) } := by
  unfold Player.move Player.fall
  simp only [h, if_true, reduceIte]
  norm_num

theorem Player.moveN_pop (p : Player) (n k : ℕ) (hk : k ≤ n) :
    Player.moveN { p with movement_stack := n + 1 } k =
      { p with movement_stack := n + 1 - k } := by
  induction k with
  | zero => rfl
  | succ j ih =>
    have hj : j ≤ n := Nat.le_of_succ_le hk
    rw [Player.moveN, ih hj,
      Player.move_pop _ (show 1 < n + 1 - j by omega)]
    dsimp only
    congr 1

theorem remove_first_sublist (l : List Obstacle) (ob : Obstacle) :
    List.Sublist (remove_first l ob) l := by
  induction l with
  | nil => simp [remove_first]
  | cons a rest ih =>
    unfold remove_first
    split_ifs
    · exact List.sublist_cons_self a rest
    · exact List.Sublist.cons₂ a ih

theorem Game.manage_pipes_loop_inert (rand : ℕ → ℚ) (fuel : ℕ) :
    ∀ (l : List Obstacle) (i k : ℕ),
      (∀ ob ∈ l.drop i, ob.halfway = false ∧ ob.off_screen = false) →
      Game.manage_pipes_loop fuel l i rand k = (l, k) := by
  induction fuel with
  | zero => intro l i k _; rfl
  | succ n ih =>
    intro l i k h
    unfold Game.manage_pipes_loop
    split
    case isTrue hi =>
      have hmem : l.get ⟨i, hi⟩ ∈ l.drop i := by
        have h1 : l.drop i = l.get ⟨i, hi⟩ :: l.drop (i + 1) := by
          rw [List.drop_eq_getElem_cons hi]
          rfl
        rw [h1]
        exact List.mem_cons_self _ _
      obtain ⟨hh, ho⟩ := h _ hmem
      simp only [hh, ho, Bool.false_eq_true, if_false]
      refine ih l (i + 1) k (fun ob hob => h ob ?_)
      have h2 : ob ∈ (l.drop i).drop 1 := by
        rw [List.drop_drop]
        exact hob
      exact List.drop_subset 1 (l.drop i) h2
    case isFalse => rfl

theorem Game.manage_pipes_loop_sublist (rand : ℕ → ℚ) (fuel : ℕ) :
    ∀ (l : List Obstacle) (i k : ℕ),
      ∃ spawned : List Obstacle,
        List.Sublist (Game.manage_pipes_loop fuel l i rand k).1 (l ++ spawned) ∧
        ∀ ob ∈ spawned,
          ob.x = 440 ∧ ob.halfway = false ∧ ob.off_screen = false := by
  induction fuel with
  | zero =>
    intro l i k
    exact ⟨[], by simp [Game.manage_pipes_loop], by simp⟩
  | succ n ih =>
    intro l i k
    unfold Game.manage_pipes_loop
    split
    case isFalse => exact ⟨[], by simp, by simp⟩
    case isTrue hi =>
      dsimp only
      by_cases hh : (l.get ⟨i, hi⟩).halfway = true
      · by_cases ho : (l.get ⟨i, hi⟩).off_screen = true
        · simp only [hh, ho, if_true]
          obtain ⟨s, hs, hp⟩ :=
            ih (remove_first (l ++ [Obstacle.init 440 (rand k)]) (l.get ⟨i, hi⟩))
              (i + 1) (k + 1)
          refine ⟨Obstacle.init 440 (rand k) :: s, ?_, ?_⟩
          · have step1 : List.Sublist
                (remove_first (l ++ [Obstacle.init 440 (rand k)]) (l.get ⟨i, hi⟩) ++ s)
                ((l ++ [Obstacle.init 440 (rand k)]) ++ s) :=
              List.Sublist.append
                (remove_first_sublist _ _) (List.Sublist.refl s)
            have heq : (l ++ [Obstacle.init 440 (rand k)]) ++ s =
                l ++ Obstacle.init 440 (rand k) :: s := by
              rw [List.append_assoc]
              rfl
            exact hs.trans (heq ▸ step1)
          · intro ob hob
            rcases List.mem_cons.mp hob with hob1 | hob2
            · subst hob1; exact ⟨rfl, rfl, rfl⟩
            · exact hp ob hob2
        · simp only [hh, ho, if_true, Bool.not_eq_true] at *
          simp only [hh, ho, Bool.false_eq_true, if_true, if_false]
          obtain ⟨s, hs, hp⟩ := ih (l ++ [Obstacle.init 440 (rand k)]) (i + 1) (k + 1)
          refine ⟨Obstacle.init 440 (rand k) :: s, ?_, ?_⟩
          · have heq : (l ++ [Obstacle.init 440 (rand k)]) ++ s =
                l ++ Obstacle.init 440 (rand k) :: s := by
              rw [List.append_assoc]
              rfl
            exact hs.trans (heq ▸ List.Sublist.refl _)
          · intro ob hob
            rcases List.mem_cons.mp hob with hob1 | hob2
            · subst hob1; exact ⟨rfl, rfl, rfl⟩
            · exact hp ob hob2
      · by_cases ho : (l.get ⟨i, hi⟩).off_screen = true
        · simp only [Bool.not_eq_true] at hh
          simp only [hh, ho, Bool.false_eq_true, if_false, if_true]
          obtain ⟨s, hs, hp⟩ := ih (remove_first l (l.get ⟨i, hi⟩)) (i + 1) k
          refine ⟨s, ?_, hp⟩
          have step1 : List.Sublist (remove_first l (l.get ⟨i, hi⟩) ++ s) (l ++ s) :=
            List.Sublist.append (remove_first_sublist _ _) (List.Sublist.refl s)
          exact hs.trans step1
        · simp only [Bool.not_eq_true] at hh ho
          simp only [hh, ho, Bool.false_eq_true, if_false]
          exact ih l (i + 1) k

theorem Game.manage_pipes_nil (rand : ℕ → ℚ) (k : ℕ) :
    Game.manage_pipes [] rand k = ([Obstacle.init 360 (rand k)], k + 1) := by
  unfold Game.manage_pipes
  simp only [List.map_nil, List.length_nil]
  simp only [ite_true, List.nil_append]
  apply Game.manage_pipes_loop_inert
  intro ob hob
  simp only [List.drop_zero, List.mem_singleton] at hob
  subst hob
  exact ⟨rfl, rfl⟩

theorem Game.manage_pipes_cruise (ob : Obstacle) (rand : ℕ → ℚ) (k : ℕ)
    (hh : (ob.move_obstacle).halfway = false)
    (ho : (ob.move_obstacle).off_screen = false) :
    Game.manage_pipes [ob] rand k = ([ob.move_obstacle], k) := by
  unfold Game.manage_pipes
  simp only [List.map_cons, List.map_nil, List.length_cons, List.length_nil]
  rw [if_neg (by omega)]
  apply Game.manage_pipes_loop_inert
  intro o ho2
  simp only [List.drop_zero, List.mem_singleton] at ho2
  subst ho2
  exact ⟨hh, ho⟩

theorem Game.manage_pipes_loop_halfway_head (y : ℚ) (rand : ℕ → ℚ) (k fuel : ℕ) :
    Game.manage_pipes_loop (fuel + 1) [⟨180, y, true, false⟩] 0 rand k =
      ([⟨180, y, true, false⟩, Obstacle.init 440 (rand k)], k + 1) := by
  unfold Game.manage_pipes_loop
  rw [dif_pos (by norm_num)]
  dsimp only [List.get]
  simp only [if_true, Bool.false_eq_true, if_false]
  rw [Game.manage_pipes_loop_inert]
  · rfl
  · intro ob hob
    simp only [List.singleton_append, List.drop_succ_cons, List.drop_zero,
      List.mem_singleton] at hob
    subst hob
    exact ⟨rfl, rfl⟩

theorem Game.manage_pipes_halfway (y : ℚ) (rand : ℕ → ℚ) (k : ℕ) :
    Game.manage_pipes [⟨182, y, false, false⟩] rand k =
      ([⟨180, y, true, false⟩, Obstacle.init 440 (rand k)], k + 1) := by
  have hmv : (Obstacle.mk 182 y false false).move_obstacle =
      ⟨180, y, true, false⟩ := by
    norm_num [Obstacle.move_obstacle, Obstacle.check_obstacle_positions]
  unfold Game.manage_pipes
  simp only [List.map_cons, List.map_nil, hmv, List.length_cons, List.length_nil]
  rw [if_neg (by omega)]
  exact Game.manage_pipes_loop_halfway_head y rand k _

theorem Game.manage_pipes_loop_remove_head (a : Obstacle) (t : List Obstacle)
    (rand : ℕ → ℚ) (k fuel : ℕ) (hh : a.halfway = false)
    (ho : a.off_screen = true)
    (ht : ∀ b ∈ t.drop 1, b.halfway = false ∧ b.off_screen = false) :
    Game.manage_pipes_loop (fuel + 1) (a :: t) 0 rand k = (t, k) := by
  unfold Game.manage_pipes_loop
  rw [dif_pos (by simp)]
  dsimp only [List.get]
  simp only [hh, ho, Bool.false_eq_true, if_false, if_true]
  rw [show remove_first (a :: t) a = t from by simp [remove_first]]
  exact Game.manage_pipes_loop_inert rand fuel t 1 k ht

theorem Game.manage_pipes_remove (a : Obstacle) (t : List Obstacle)
    (rand : ℕ → ℚ) (k : ℕ) (ha : a.x - 2 + 70 ≤ 0)
    (ht : ∀ b ∈ t, ¬(b.x - 2 = 180) ∧ ¬(b.x - 2 + 70 ≤ 0) ∧ b.off_screen = false) :
    Game.manage_pipes (a :: t) rand k = (t.map Obstacle.move_obstacle, k) := by
  unfold Game.manage_pipes
  simp only [List.map_cons, List.length_cons]
  rw [if_neg (by omega)]
  apply Game.manage_pipes_loop_remove_head
  · rw [Obstacle.move_obstacle_halfway, decide_eq_false_iff_not]
    intro hcon
    linarith
  · rw [Obstacle.move_obstacle_off_screen]
    simp [ha]
  · intro b hb
    have hb2 : b ∈ t.map Obstacle.move_obstacle :=
      List.drop_subset 1 (t.map Obstacle.move_obstacle) hb
    obtain ⟨b0, hb0, rfl⟩ := List.mem_map.mp hb2
    obtain ⟨h1, h2, _⟩ := ht b0 hb0
    constructor
    · rw [Obstacle.move_obstacle_halfway, decide_eq_false_iff_not]
      exact h1
    · rw [Obstacle.move_obstacle_off_screen]
      simp only [Bool.or_eq_false_iff]
      exact ⟨by rw [decide_eq_false_iff_not]; exact h2, (ht b0 hb0).2.2⟩

theorem Obstacle.move_obstacle_eq (ob : Obstacle) (hh : ¬(ob.x - 2 = 180))
    (ho : ¬(ob.x - 2 + 70 ≤ 0)) :
    ob.move_obstacle = ⟨ob.x - 2, ob.y, false, ob.off_screen⟩ := by
  unfold Obstacle.move_obstacle Obstacle.check_obstacle_positions
  dsimp only
  rw [show ob.x + -2 = ob.x - 2 from by ring]
  rw [if_neg ho, if_neg hh]

theorem Game.pipesN_traj (rand : ℕ → ℚ) :
    ∀ k : ℕ, 1 ≤ k → k ≤ 90 →
      Game.pipesN rand k =
        ([⟨360 - 2 * ((k : ℚ) - 1), rand 0, false, false⟩], 1) := by
  intro k
  induction k with
  | zero => intro h1 _; omega
  | succ n ih =>
    intro h1 h2
    by_cases hn : n = 0
    · subst hn
      rw [Game.pipesN, Game.pipesN, Game.manage_pipes_nil]
      norm_num [Obstacle.init]
    · have h1n : 1 ≤ n := by omega
      have h2n : n ≤ 89 := by omega
      have hqn : (n : ℚ) ≤ 89 := by exact_mod_cast h2n
      rw [Game.pipesN, ih h1n (by omega)]
      have hx : (Obstacle.mk (360 - 2 * ((n : ℚ) - 1)) (rand 0) false false).x - 2 =
          362 - 2 * (n : ℚ) - 2 := by
        dsimp only
        ring
      have hh : ¬((Obstacle.mk (360 - 2 * ((n : ℚ) - 1)) (rand 0) false false).x - 2
          = 180) := by
        rw [hx]
        intro hcon
        have : (n : ℚ) = 90 := by linarith
        linarith
      have ho : ¬((Obstacle.mk (360 - 2 * ((n : ℚ) - 1)) (rand 0) false false).x - 2
          + 70 ≤ 0) := by
        rw [hx]
        intro hcon
        linarith
      rw [Game.manage_pipes_cruise _ rand 1 ?hcond1 ?hcond2]
      case hcond1 =>
        rw [Obstacle.move_obstacle_halfway]
        simpa using hh
      case hcond2 =>
        rw [Obstacle.move_obstacle_off_screen]
        simp only [Bool.or_eq_false_iff]
        constructor
        · simpa using ho
        · trivial
      rw [Obstacle.move_obstacle_eq _ hh ho]
      have : (360 : ℚ) - 2 * ((n : ℚ) - 1) - 2 = 360 - 2 * ((n + 1 : ℕ) - 1 : ℚ) := by
        push_cast
        ring
      rw [show ((Obstacle.mk (360 - 2 * ((n : ℚ) - 1)) (rand 0) false false).x - 2 : ℚ)
          = 360 - 2 * (((n + 1 : ℕ) : ℚ) - 1) from by dsimp only; push_cast; ring]

theorem Game.pipesN_91 (rand : ℕ → ℚ) :
    Game.pipesN rand 91 =
      ([⟨180, rand 0, true, false⟩, Obstacle.init 440 (rand 1)], 2) := by
  show Game.pipesN rand (90 + 1) = _
  rw [Game.pipesN, Game.pipesN_traj rand 90 (by norm_num) (by norm_num)]
  rw [show (Obstacle.mk (360 - 2 * (((90 : ℕ) : ℚ) - 1)) (rand 0) false false)
      = ⟨182, rand 0, false, false⟩ from by norm_num]
  exact Game.manage_pipes_halfway (rand 0) rand 1

/-- C1 (amended): on every tick where the obstacle stream is nonempty,
if the entity bottom edge is at or below the play-area height 640 or its
top edge is at or above 0, manage_collisions reports a collision (truthy)
and check_restart tears the session down (Terminated).  The original
claim extended this to the empty stream; claim1_counterexample shows
that manage_collisions then short-circuits to False instead. -/
theorem claim1_theorem (g : Game) (hne : g.obstacles ≠ [])
    (hb : g.player.get_coordinates.2.2.2 ≥ 640 ∨ g.player.get_coordinates.2.1 ≤ 0) :
    truthy g.manage_collisions = true ∧
      Application.check_restart g = SessionState.Terminated := by
  have hcol : truthy g.manage_collisions = true := by
    cases hobs : g.obstacles with
    | nil => exact absurd hobs hne
    | cons ob rest =>
      simp only [Game.manage_collisions, hobs]
      by_cases hov : (overlapping g.player.get_coordinates ob.bottom_obstacle_position
          || overlapping g.player.get_coordinates ob.top_obstacle_position) = true
      · rw [if_pos hov]
        rfl
      · rw [if_neg hov, if_pos hb]
        rfl
  refine ⟨hcol, ?_⟩
  unfold Application.check_restart
  rw [hcol]
  rfl

/-- Witness for C1 at a concrete game: one obstacle pair, player top y
610 so bottom y 650 >= 640; the collision is reported and the session is
Terminated. -/
theorem claim1_witness :
    (Game.mk ⟨40, 610, 0, 0⟩ [Obstacle.init 360 300] ⟨0⟩ 0).obstacles ≠ [] ∧
    (Game.mk ⟨40, 610, 0, 0⟩ [Obstacle.init 360 300] ⟨0⟩ 0).player.get_coordinates.2.2.2 ≥ 640 ∧
    truthy (Game.mk ⟨40, 610, 0, 0⟩ [Obstacle.init 360 300] ⟨0⟩ 0).manage_collisions = true ∧
    Application.check_restart (Game.mk ⟨40, 610, 0, 0⟩ [Obstacle.init 360 300] ⟨0⟩ 0) =
      SessionState.Terminated := by
  have hb : (Game.mk ⟨40, 610, 0, 0⟩ [Obstacle.init 360 300] ⟨0⟩ 0).player.get_coordinates.2.2.2
      ≥ (640 : ℚ) := by
    norm_num [Player.get_coordinates]
  obtain ⟨h1, h2⟩ := claim1_theorem (Game.mk ⟨40, 610, 0, 0⟩ [Obstacle.init 360 300] ⟨0⟩ 0)
    (by simp) (Or.inl hb)
  exact ⟨by simp, hb, h1, h2⟩

/-- Counterexample to C1 as stated: with an EMPTY obstacle stream and the
player bottom at 650 >= 640, manage_collisions returns False via its
IndexError handler (falsy) and the session stays Running, contradicting
"regardless of the obstacle stream state ... also when the obstacle
stream is empty". -/
theorem claim1_counterexample :
    (Game.mk ⟨40, 610, 0, 0⟩ [] ⟨0⟩ 0).player.get_coordinates.2.2.2 ≥ 640 ∧
    truthy (Game.mk ⟨40, 610, 0, 0⟩ [] ⟨0⟩ 0).manage_collisions = false ∧
    Application.check_restart (Game.mk ⟨40, 610, 0, 0⟩ [] ⟨0⟩ 0) = SessionState.Running := by
  refine ⟨by norm_num [Player.get_coordinates], rfl, rfl⟩

/-- Counterexample to C2 as stated: from the start state with 2 queued
boosts the next tick leaves the entity frozen at y = 300, while with
exactly 1 queued boost the same tick flaps it to y = 292 — so N = 2
boost events between two ticks do NOT have the same effect on
subsequent positions as exactly 1. -/
theorem claim2_counterexample :
    (Player.move ⟨40, 300, 0, 2⟩).y = 300 ∧
    (Player.move ⟨40, 300, 0, 1⟩).y = 292 ∧
    (Player.move ⟨40, 300, 0, 2⟩).y ≠ (Player.move ⟨40, 300, 0, 1⟩).y := by
  rw [Player.move_pop ⟨40, 300, 0, 2⟩ (by norm_num),
    Player.move_flap ⟨40, 300, 0, 1⟩ rfl]
  norm_num

/-- C2 (amended): delivering n + 1 boost events between two ticks yields
exactly one flap, delayed: the first n ticks each silently discard one
queued event and leave position and velocity untouched, and after n + 1
ticks the state equals the state reached by one tick from exactly 1
queued boost.  Excess requests are therefore never stacked into extra
flaps, but each one freezes the entity for a tick rather than being
dropped at enqueue time. -/
theorem claim2_theorem (p : Player) (n : ℕ) :
    Player.moveN { p with movement_stack := n + 1 } (n + 1) =
      Player.move { p with movement_stack := 1 } ∧
    ∀ k : ℕ, k ≤ n →
      (Player.moveN { p with movement_stack := n + 1 } k).y = p.y ∧
      (Player.moveN { p with movement_stack := n + 1 } k).y_velocity = p.y_velocity := by
  constructor
  · rw [Player.moveN, Player.moveN_pop p n n (le_refl n)]
    have h : n + 1 - n = 1 := by omega
    rw [h]
  · intro k hk
    rw [Player.moveN_pop p n k hk]
    exact ⟨rfl, rfl⟩

/-- Witness for C2 (amended) with n = 2 at the start state. -/
theorem claim2_witness :
    Player.moveN ⟨40, 300, 0, 3⟩ 3 = Player.move ⟨40, 300, 0, 1⟩ ∧
    (Player.moveN ⟨40, 300, 0, 3⟩ 1).y = 300 ∧ (1 : ℕ) ≤ 2 := by
  obtain ⟨h1, h2⟩ := claim2_theorem ⟨40, 300, 0, 0⟩ 2
  exact ⟨h1, (h2 1 (by norm_num)).1, by norm_num⟩

/-- Counterexample to C3 as stated: invoked on a game whose obstacle
stream is empty, the score half of the evaluation (manage_score) hits
obstacles[0] outside any try/except and raises IndexError (none), so
the combined collision-and-scoring evaluation does not run to completion
without fault, even though the collision half returns False. -/
theorem claim3_counterexample :
    Game.manage_score (Game.mk ⟨40, 300, 0, 0⟩ [] ⟨0⟩ 0) = none ∧
    Game.manage_collisions (Game.mk ⟨40, 300, 0, 0⟩ [] ⟨0⟩ 0) = some false :=
  ⟨rfl, rfl⟩

/-- C3 (amended): with an empty obstacle stream, manage_collisions
short-circuits via its IndexError handler to False — no collision, not
truthy, session stays Running — while manage_score, which has no such
handler, raises IndexError (none).  In the tick cycle this fault is
unreachable because manage_pipes always leaves the stream nonempty
before the score check runs. -/
theorem claim3_theorem (g : Game) (h : g.obstacles = []) :
    g.manage_collisions = some false ∧
    truthy g.manage_collisions = false ∧
    Application.check_restart g = SessionState.Running ∧
    g.manage_score = none := by
  have h1 : g.manage_collisions = some false := by
    simp only [Game.manage_collisions, h]
  have h2 : truthy g.manage_collisions = false := by
    rw [h1]
    rfl
  refine ⟨h1, h2, ?_, ?_⟩
  · unfold Application.check_restart
    rw [h2]
    rfl
  · simp only [Game.manage_score, h]

/-- Witness for C3 (amended) at a concrete empty-stream game. -/
theorem claim3_witness :
    Game.manage_collisions (Game.mk ⟨40, 290, 0, 0⟩ [] ⟨0⟩ 0) = some false ∧
    truthy (Game.mk ⟨40, 290, 0, 0⟩ [] ⟨0⟩ 0).manage_collisions = false ∧
    Application.check_restart (Game.mk ⟨40, 290, 0, 0⟩ [] ⟨0⟩ 0) = SessionState.Running ∧
    Game.manage_score (Game.mk ⟨40, 290, 0, 0⟩ [] ⟨0⟩ 0) = none :=
  claim3_theorem (Game.mk ⟨40, 290, 0, 0⟩ [] ⟨0⟩ 0) rfl

/-- C4: the score event triggers exactly when the entity right edge
equals the nearest pair right edge (increment by exactly 1, otherwise
the state is returned unchanged); the scoreboard score never decreases
(and neither does the Game.score mirror when it agrees with the
scoreboard); and the equality can hold for at most one tick index per
pair, because the player x never changes while the pair scrolls left 2
per tick — hence at most one increment per pair passage. -/
theorem claim4_theorem :
    (∀ (g : Game) (ob : Obstacle) (rest : List Obstacle), g.obstacles = ob :: rest →
      (g.player.get_coordinates.2.2.1 = ob.bottom_obstacle_position.2.2.1 →
        g.manage_score = some { g with scoreboard := ⟨g.scoreboard.score + 1⟩,
                                       score := g.scoreboard.score + 1 }) ∧
      (g.player.get_coordinates.2.2.1 ≠ ob.bottom_obstacle_position.2.2.1 →
        g.manage_score = some g)) ∧
    (∀ g g2 : Game, g.manage_score = some g2 →
      g.scoreboard.score ≤ g2.scoreboard.score ∧
      (g.score = g.scoreboard.score → g.score ≤ g2.score)) ∧
    (∀ (p : Player) (ob : Obstacle) (j k : ℕ),
      (p.moveN j).get_coordinates.2.2.1 =
        (ob.move_obstacleN j).bottom_obstacle_position.2.2.1 →
      (p.moveN k).get_coordinates.2.2.1 =
        (ob.move_obstacleN k).bottom_obstacle_position.2.2.1 →
      j = k) := by
  refine ⟨?_, ?_, ?_⟩
  · intro g ob rest hobs
    constructor
    · intro heq
      simp only [Game.manage_score, hobs]
      rw [if_pos heq]
      rfl
    · intro hne
      simp only [Game.manage_score, hobs]
      rw [if_neg hne]
  · intro g g2 hsome
    cases hobs : g.obstacles with
    | nil =>
      rw [Game.manage_score, hobs] at hsome
      exact Option.noConfusion hsome
    | cons ob rest =>
      simp only [Game.manage_score, hobs] at hsome
      split_ifs at hsome with hcond
      · injection hsome with hsome
        subst hsome
        dsimp only [Scoreboard.increase_score]
        refine ⟨Nat.le_succ _, fun hmirror => ?_⟩
        omega
      · injection hsome with hsome
        subst hsome
        exact ⟨le_refl _, fun _ => le_refl _⟩
  · intro p ob j k hj hk
    simp only [Player.get_coordinates, Obstacle.bottom_obstacle_position,
      Player.moveN_x, Obstacle.move_obstacleN_x] at hj hk
    have h2 : (j : ℚ) = (k : ℚ) := by linarith
    exact_mod_cast h2

/-- Witness for C4: with player right edge 80 aligned to the pair right
edge 10 + 70, manage_score increments the score from 0 to exactly 1. -/
theorem claim4_witness :
    Game.manage_score (Game.mk ⟨40, 300, 0, 0⟩ [⟨10, 300, false, false⟩] ⟨0⟩ 0) =
      some (Game.mk ⟨40, 300, 0, 0⟩ [⟨10, 300, false, false⟩] ⟨1⟩ 1) := by
  have h := (claim4_theorem.1 (Game.mk ⟨40, 300, 0, 0⟩ [⟨10, 300, false, false⟩] ⟨0⟩ 0)
    ⟨10, 300, false, false⟩ [] rfl).1
  have heq : (Game.mk ⟨40, 300, 0, 0⟩ [⟨10, 300, false, false⟩] ⟨0⟩
      0).player.get_coordinates.2.2.1 =
      (Obstacle.mk 10 300 false false).bottom_obstacle_position.2.2.1 := by
    norm_num [Player.get_coordinates, Obstacle.bottom_obstacle_position]
  exact h heq

/-- Counterexample to C5 as stated: for the pair spawned at x = 360 the
halfway flag is true on the tick where the leading edge is exactly 180
(tick 90) but false again one tick later (x = 178 < 180), although the
leading edge has crossed the midpoint — the flag is not "true on every
tick at or after" the crossing. -/
theorem claim5_counterexample :
    ((Obstacle.init 360 300).move_obstacleN 90).halfway = true ∧
    ((Obstacle.init 360 300).move_obstacleN 91).x < 180 ∧
    ((Obstacle.init 360 300).move_obstacleN 91).halfway = false := by
  refine ⟨(Obstacle.init_moveN_halfway 300 90).mpr rfl, ?_, ?_⟩
  · rw [Obstacle.move_obstacleN_x]
    norm_num [Obstacle.init]
  · cases hb : ((Obstacle.init 360 300).move_obstacleN 91).halfway with
    | false => rfl
    | true => exact absurd ((Obstacle.init_moveN_halfway 300 91).mp hb) (by norm_num)

/-- C5 (amended): after any tick, a pair's halfway flag is true exactly
when its left edge is exactly 180 on that tick (a one-tick pulse that is
reset by the unconditional else branch), and the flag starts false at
spawn. -/
theorem claim5_theorem :
    (∀ (ob : Obstacle) (k : ℕ),
      (ob.move_obstacleN (k + 1)).halfway = true ↔ ob.x - 2 * (k + 1) = 180) ∧
    (∀ x y : ℚ, (Obstacle.init x y).halfway = false) := by
  constructor
  · intro ob k
    rw [Obstacle.move_obstacleN, Obstacle.move_obstacle_halfway,
      Obstacle.move_obstacleN_x, decide_eq_true_eq]
    constructor
    · intro h
      push_cast at h ⊢
      linarith
    · intro h
      push_cast at h ⊢
      linarith
  · intro x y
    rfl

/-- Witness for C5 (amended): the pair spawned at 360 has halfway = true
on tick 90, where its left edge is exactly 180. -/
theorem claim5_witness :
    ((Obstacle.init 360 300).move_obstacleN 90).halfway = true :=
  (claim5_theorem.1 (Obstacle.init 360 300) 89).mpr (by norm_num [Obstacle.init])

/-- C6: from the empty stream, the first stream tick spawns exactly one
pair with left edge at x = 360 and gap-center rand 0 (constrained to
[200, 600) by the randrange contract); the pair then cruises alone for
ticks 1..90; on tick 91 its position reaches exactly 180, halfway
becomes true, and exactly one new pair is spawned at x = 440 on that
same tick with gap-center rand 1 in [200, 600). -/
theorem claim6_theorem (rand : ℕ → ℚ) (hr : ∀ i, 200 ≤ rand i ∧ rand i < 600) :
    (Game.pipesN rand 1 = ([Obstacle.init 360 (rand 0)], 1) ∧
      200 ≤ rand 0 ∧ rand 0 < 600) ∧
    (∀ k : ℕ, 1 ≤ k → k ≤ 90 →
      Game.pipesN rand k =
        ([⟨360 - 2 * ((k : ℚ) - 1), rand 0, false, false⟩], 1)) ∧
    (Game.pipesN rand 91 =
        ([⟨180, rand 0, true, false⟩, Obstacle.init 440 (rand 1)], 2) ∧
      200 ≤ rand 1 ∧ rand 1 < 600) := by
  refine ⟨⟨?_, (hr 0).1, (hr 0).2⟩, Game.pipesN_traj rand,
    Game.pipesN_91 rand, (hr 1).1, (hr 1).2⟩
  show Game.pipesN rand (0 + 1) = _
  rw [Game.pipesN]
  exact Game.manage_pipes_nil rand 0

/-- Witness for C6 with the constant supply 300. -/
theorem claim6_witness :
    Game.pipesN (fun _ => 300) 1 = ([Obstacle.init 360 300], 1) ∧
    Game.pipesN (fun _ => 300) 91 =
      ([⟨180, 300, true, false⟩, Obstacle.init 440 300], 2) := by
  have h := claim6_theorem (fun _ => 300) (fun i => by norm_num)
  exact ⟨h.1.1, h.2.2.1⟩

/-- C7: for a pair created with any gap-center in [200, 600), on every
tick of its lifetime the top and bottom pipe bounding boxes do not
intersect, the bottom pipe top edge sits exactly 150 below the top pipe
bottom edge, and the two boxes share both horizontal edges (lockstep
translation). -/
theorem claim7_theorem (x y : ℚ) (k : ℕ) (h1 : 200 ≤ y) (h2 : y < 600) :
    overlapping ((Obstacle.init x y).move_obstacleN k).top_obstacle_position
        ((Obstacle.init x y).move_obstacleN k).bottom_obstacle_position = false ∧
    ((Obstacle.init x y).move_obstacleN k).bottom_obstacle_position.2.1 -
      ((Obstacle.init x y).move_obstacleN k).top_obstacle_position.2.2.2 = 150 ∧
    ((Obstacle.init x y).move_obstacleN k).top_obstacle_position.1 =
      ((Obstacle.init x y).move_obstacleN k).bottom_obstacle_position.1 ∧
    ((Obstacle.init x y).move_obstacleN k).top_obstacle_position.2.2.1 =
      ((Obstacle.init x y).move_obstacleN k).bottom_obstacle_position.2.2.1 := by
  have hy : ((Obstacle.init x y).move_obstacleN k).y = y := by
    rw [Obstacle.move_obstacleN_y]
    rfl
  have hgap : ¬(((Obstacle.init x y).move_obstacleN k).y ≤
      ((Obstacle.init x y).move_obstacleN k).y - 150) := by
    intro hcon
    linarith
  refine ⟨?_, ?_, rfl, rfl⟩
  · simp only [overlapping, Obstacle.top_obstacle_position,
      Obstacle.bottom_obstacle_position, Bool.and_eq_false_iff]
    right
    rw [decide_eq_false_iff_not]
    exact hgap
  · simp only [Obstacle.top_obstacle_position, Obstacle.bottom_obstacle_position]
    ring

/-- Witness for C7 at x = 360, gap-center 300, tick 5. -/
theorem claim7_witness :
    (200 : ℚ) ≤ 300 ∧
    overlapping ((Obstacle.init 360 300).move_obstacleN 5).top_obstacle_position
      ((Obstacle.init 360 300).move_obstacleN 5).bottom_obstacle_position = false :=
  ⟨by norm_num, (claim7_theorem 360 300 5 (by norm_num) (by norm_num)).1⟩

/-- Counterexample to C8 as stated: the claimed bound is play-width /
scroll-speed = 360 / 2 = 180 ticks, but the pair spawned at x = 360 is
still not off-screen after 180 ticks — nor after 214 — and becomes
off-screen only on tick 215 = (360 + 70) / 2. -/
theorem claim8_counterexample :
    ((Obstacle.init 360 300).move_obstacleN 180).off_screen = false ∧
    ((Obstacle.init 360 300).move_obstacleN 214).off_screen = false ∧
    ((Obstacle.init 360 300).move_obstacleN 215).off_screen = true := by
  rw [Obstacle.init_moveN_off_screen, Obstacle.init_moveN_off_screen,
    Obstacle.init_moveN_off_screen]
  refine ⟨by norm_num, by norm_num, by norm_num⟩

/-- C8 (amended): for every obstacle pair spawned on-screen (flag clear,
left edge above -70), the off_screen flag is true exactly once the
trailing edge has reached 0, i.e. from tick (spawn x + pipe width) /
scroll-speed of its lifetime on — 215 ticks for the pairs spawned at
x = 360 and 255 ticks for the pairs spawned at x = 440 — finite, but
later than the claimed play-width / scroll-speed = 180 ticks; for every
stream whose leading pair's trailing edge crosses 0 on the current tick
while all trailing pairs are strictly mid-screen (the shape at which
every removal occurs in a run), the tick removes the leading pair
within that same stream tick, leaving exactly the moved trailing pairs;
and the spawn/remove loop never reorders surviving pairs: its result is
a sublist of the input followed by the freshly spawned pairs. -/
theorem claim8_theorem :
    (∀ (ob : Obstacle) (k : ℕ), ob.off_screen = false → -70 < ob.x →
      ((ob.move_obstacleN k).off_screen = true ↔ ob.x + 70 ≤ 2 * (k : ℚ))) ∧
    (∀ (y : ℚ) (k : ℕ),
      ((Obstacle.init 360 y).move_obstacleN k).off_screen = decide (215 ≤ k) ∧
      ((Obstacle.init 440 y).move_obstacleN k).off_screen = decide (255 ≤ k)) ∧
    (∀ (a : Obstacle) (t : List Obstacle) (rand : ℕ → ℚ) (k : ℕ),
      a.x - 2 + 70 ≤ 0 →
      (∀ b ∈ t, ¬(b.x - 2 = 180) ∧ ¬(b.x - 2 + 70 ≤ 0) ∧ b.off_screen = false) →
      Game.manage_pipes (a :: t) rand k = (t.map Obstacle.move_obstacle, k)) ∧
    (∀ (rand : ℕ → ℚ) (fuel : ℕ) (l : List Obstacle) (i k : ℕ),
      ∃ spawned : List Obstacle,
        List.Sublist (Game.manage_pipes_loop fuel l i rand k).1 (l ++ spawned) ∧
        ∀ ob ∈ spawned,
          ob.x = 440 ∧ ob.halfway = false ∧ ob.off_screen = false) := by
  refine ⟨?_, ?_, Game.manage_pipes_remove,
    fun rand fuel => Game.manage_pipes_loop_sublist rand fuel⟩
  · intro ob k hoff hx
    rw [Obstacle.moveN_off_screen_formula ob hoff hx k, decide_eq_true_eq]
  · intro y k
    exact ⟨Obstacle.init_moveN_off_screen y k,
      Obstacle.init440_moveN_off_screen y k⟩

/-- Witness for C8 (amended): the pair spawned at 440 is off-screen at
tick 255, and a concrete same-tick removal of the lead pair out of a
two-pair stream preserving the moved trailing pair. -/
theorem claim8_witness :
    ((Obstacle.init 440 300).move_obstacleN 255).off_screen = true ∧
    Game.manage_pipes [⟨-68, 300, false, false⟩, ⟨192, 350, false, false⟩]
      (fun _ => 300) 5 = ([⟨190, 350, false, false⟩], 5) := by
  constructor
  · exact (claim8_theorem.1 (Obstacle.init 440 300) 255 rfl
      (by norm_num [Obstacle.init])).mpr (by norm_num [Obstacle.init])
  · have h := claim8_theorem.2.2.1 ⟨-68, 300, false, false⟩
      [⟨192, 350, false, false⟩] (fun _ => 300) 5 (by norm_num)
      (by intro b hb
          rw [List.mem_singleton] at hb
          subst hb
          refine ⟨by norm_num, by norm_num, rfl⟩)
    rw [h]
    norm_num [Obstacle.move_obstacle, Obstacle.check_obstacle_positions]

/-- C9: the session creates the entity at (40, 300) with velocity 0 in
the 360 x 640 play area; one fall tick gives velocity 5 * 0.1 = 0.5 and
moves the entity down by 0.5; one boost tick gives velocity
-5 * 1.6 = -8 and moves the entity up by 8. -/
theorem claim9_theorem :
    Game.init.player = Player.init 40 300 ∧
    (Player.init 40 300).y_velocity = 0 ∧
    (Player.init 40 300).move = ⟨40, 300 + 1 / 2, 5 * (1 / 10), 0⟩ ∧
    (Player.init 40 300).move.y - (Player.init 40 300).y = 1 / 2 ∧
    Player.move ⟨40, 300, 0, 1⟩ = ⟨40, 300 - 8, -5 * (8 / 5), 0⟩ ∧
    (Player.move ⟨40, 300, 0, 1⟩).y - 300 = -8 := by
  rw [Player.move_flap ⟨40, 300, 0, 1⟩ rfl]
  rw [Player.move_fall (Player.init 40 300) rfl]
  norm_num [Player.init, Game.init]

/-- C10: when more than one boost input is pending at a tick, the tick
runs neither the fall branch nor the flap branch: position and velocity
are unchanged and exactly one pending input is popped. -/
theorem claim10_theorem (p : Player) (h : 1 < p.movement_stack) :
    p.move = { p with movement_stack := p.movement_stack - 1 } :=
  Player.move_pop p h

/-- Witness for C10 with 3 pending inputs. -/
theorem claim10_witness :
    1 < (Player.mk 40 300 0 3).movement_stack ∧
    Player.move ⟨40, 300, 0, 3⟩ = ⟨40, 300, 0, 2⟩ :=
  ⟨by norm_num, claim10_theorem ⟨40, 300, 0, 3⟩ (by norm_num)⟩
